import Mathlib

set_option linter.unusedVariables false

/-!
# Verification of the `rdp_proxy` module (bettercap-ng)

Shallow embedding of `src/modules/rdp_proxy/rdp_proxy_linux_amd64.go`.

Modelling conventions:
* Go strings stay `String`; Go ints become `Nat` (all ports and queue numbers
  in this module are small non-negative values, no overflow is reachable).
* The `active` Go map (`map[string]exec.Cmd`) becomes an association list
  keyed by the `"ip:port"` string; the code only inserts when the key is
  absent, so cons-on-miss is an exact model.
* External effects (process spawns, `iptables` invocations, packet verdicts)
  are collected in an `Effects` record: the decision engine in the source
  performs them in-line and discards their errors, so the model takes the
  success bits (`spawnOk`, `ruleOk`) as inputs and records what was issued.
* A nil-pointer dereference (calling a method on a nil gopacket layer)
  is modelled as the `none` result of the handler: the Go program panics
  there, before issuing any verdict or side effect.
-/

namespace RdpProxy

/-- Netfilter drop verdict (`nfqueue.NF_DROP = 0`). -/
def NF_DROP : Nat := 0

/-- Netfilter accept verdict (`nfqueue.NF_ACCEPT = 1`). -/
def NF_ACCEPT : Nat := 1

/-- One `iptables` invocation: the argument vector passed to `core.Exec`. -/
abbrev IptablesCmd := List String

/-- Model of the `exec.Cmd` value stored in `mod.active`: the command path,
its argument vector, and whether `cmd.Start()` succeeded (in Go the struct
differs only in its `Process` field when `Start` failed; the source ignores
the `Start` error and stores the struct either way). -/
structure AgentCmd where
  path : String
  args : List String
  started : Bool
deriving DecidableEq, Repr

/-- The mutable fields of `RdpProxy` that the claims are about.
`queue : Option Unit` models the `*nfqueue.Queue` pointer: `some ()` when
`mod.queue != nil` (a queue object exists / is bound), `none` when nil.
`running` is the `session.SessionModule` running flag. -/
structure ModState where
  port : Nat
  startPort : Nat
  cmd : String
  queueNum : Nat
  active : List (String × AgentCmd)
  addresses : List String
  queue : Option Unit
  running : Bool
deriving DecidableEq, Repr

/-- The state built by `NewRdpProxy`: port 3389, startPort 40000,
command `pyrdp-mitm.py`, queue number 0, empty session map, no addresses,
nil queue, not running. -/
def initState : ModState :=
  { port := 3389
    startPort := 40000
    cmd := "pyrdp-mitm.py"
    queueNum := 0
    active := []
    addresses := []
    queue := none
    running := false }

/-- `isTarget`: linear scan of `mod.addresses` comparing `addr.String() == ip`.
Addresses are modelled by their string forms. -/
def isTarget (st : ModState) (ip : String) : Bool :=
  st.addresses.contains ip

/-- The argument vector `doProxy` passes to `iptables`:
insert at position 1 of chain `BCAPRDP` in table `nat` a REDIRECT of
traffic to `addr` on the service port towards local port `port`.
The `enable` parameter is in the Go signature but unused by the body. -/
def doProxyCmd (servicePort : Nat) (addr : String) (port : String)
    (enable : Bool) : IptablesCmd :=
  ["-t", "nat",
   "-I", "BCAPRDP", "1",
   "-d", addr,
   "-p", "tcp",
   "--dport", toString servicePort,
   "-j", "REDIRECT",
   "--to-ports", port]

/-- The argument vector `doReturn` passes to `iptables`:
insert at position 1 of chain `BCAPRDP` a RETURN rule for destination
`dst` and destination port `dport`. The `enable` parameter is in the Go
signature but unused by the body. -/
def doReturnCmd (dst : String) (dport : String) (enable : Bool) : IptablesCmd :=
  ["-t", "nat",
   "-I", "BCAPRDP", "1",
   "-p", "tcp",
   "-d", dst,
   "--dport", dport,
   "-j", "RETURN"]

/-- The three rules `configureFirewall(true)` issues: create chain `BCAPRDP`,
hook it at position 1 of `PREROUTING`, append the NFQUEUE diversion rule for
the service port. -/
def enableRules (servicePort queueNum : Nat) : List IptablesCmd :=
  [["-t", "nat", "-N", "BCAPRDP"],
   ["-t", "nat", "-I", "PREROUTING", "1", "-j", "BCAPRDP"],
   ["-t", "nat", "-A", "BCAPRDP",
    "-p", "tcp", "-m", "tcp", "--dport", toString servicePort,
    "-j", "NFQUEUE", "--queue-num", toString queueNum, "--queue-bypass"]]

/-- The three rules `configureFirewall(false)` issues: unhook the chain from
`PREROUTING`, flush it, delete it. -/
def disableRules : List IptablesCmd :=
  [["-t", "nat", "-D", "PREROUTING", "-j", "BCAPRDP"],
   ["-t", "nat", "-F", "BCAPRDP"],
   ["-t", "nat", "-X", "BCAPRDP"]]

/-- `configureFirewall`: runs the selected rule list in order through
`core.Exec`, stopping at the first failure. `failAt = some i` injects a
failure of the `i`-th `iptables` call (the failing call is still executed).
Returns the commands actually issued and the overall success. -/
def configureFirewall (servicePort queueNum : Nat) (enable : Bool)
    (failAt : Option Nat) : List IptablesCmd × Bool :=
  let rules := if enable then enableRules servicePort queueNum else disableRules
  match failAt with
  | none => (rules, true)
  | some i =>
    if i < rules.length then (rules.take (i + 1), false) else (rules, true)

/-- One intercepted packet as seen by the handler after
`gopacket.NewPacket(payload.Data, layers.LayerTypeIPv4, gopacket.Default)`:
`net = some (src, dst)` holds the network-flow endpoint strings when the
packet has a decoded network layer (`p.NetworkLayer() != nil`), `none`
otherwise; likewise `trans = some (sport, dport)` for the transport layer. -/
structure Packet where
  net : Option (String × String)
  trans : Option (String × String)
deriving DecidableEq, Repr

/-- The observable actions of one (or several) handler invocations:
attempted process spawns (command path and argument vector), `iptables`
commands issued, and packet verdicts set. -/
structure Effects where
  spawns : List (String × List String)
  rules : List IptablesCmd
  verdicts : List Nat
deriving DecidableEq, Repr

def Effects.append (a b : Effects) : Effects :=
  ⟨a.spawns ++ b.spawns, a.rules ++ b.rules, a.verdicts ++ b.verdicts⟩

/-- Shallow embedding of `handleRdpConnection`.

The Go code reads `p.NetworkLayer().NetworkFlow()` and
`p.TransportLayer().TransportFlow()` unconditionally; when the packet has no
network or no transport layer the corresponding accessor returns nil and the
method call on it panics — modelled by the `none` result (no verdict, no
effect). Otherwise:
* target destination with an existing `active[target]` entry: nothing but
  the final `payload.SetVerdict(nfqueue.NF_DROP)`;
* target destination, no entry: build `args = ["-l", startPort, target]`,
  spawn `exec.Command(mod.cmd, args...)` (the `cmd.Start()` error is
  discarded — `spawnOk` records the outcome in the stored `AgentCmd` only),
  issue the `doProxy` rule (its error is discarded — `ruleOk` is unused),
  store the session, increment `startPort`;
* non-target destination: issue the `doReturn` rule (error discarded).
In the two latter cases the drop verdict follows. -/
def handleRdpConnection (st : ModState) (p : Packet)
    (spawnOk : Bool) (ruleOk : Bool) : Option (ModState × Effects) :=
  match p.net, p.trans with
  | some (_src, dst), some (_sport, dport) =>
    if isTarget st dst then
      let target := dst ++ ":" ++ dport
      match st.active.lookup target with
      | some _ =>
        some (st, ⟨[], [], [NF_DROP]⟩)
      | none =>
        let args := ["-l", toString st.startPort, target]
        some ({ st with
                  active := (target, ⟨st.cmd, args, spawnOk⟩) :: st.active,
                  startPort := st.startPort + 1 },
              ⟨[(st.cmd, args)],
               [doProxyCmd st.port dst (toString st.startPort) true],
               [NF_DROP]⟩)
    else
      some (st, ⟨[], [doReturnCmd dst dport true], [NF_DROP]⟩)
  | _, _ => none

/-- Runs the handler over a sequence of packets, each paired with the
success bits of its spawn and rule executions; a crash anywhere crashes the
run. Effects are concatenated in order. -/
def runHandler (st : ModState) :
    List (Packet × Bool × Bool) → Option (ModState × Effects)
  | [] => some (st, ⟨[], [], []⟩)
  | (p, sOk, rOk) :: rest =>
    match handleRdpConnection st p sOk rOk with
    | none => none
    | some (st₁, e₁) =>
      match runHandler st₁ rest with
      | none => none
      | some (st₂, e₂) => some (st₂, e₁.append e₂)

/-- The environment `Configure` runs against: the outcome of each parameter
read, of the agent-executable lookup, of each queue call, and of the firewall
enable sequence. `start` is the value of the registered `rdp.proxy.start`
parameter — recorded here so that theorems can state whether `Configure`
consumes it. `parsedTargets` is the address list `network.ParseTargets`
produces from the `rdp.proxy.targets` string (`none` = parse error). -/
structure ConfigEnv where
  portParam : Option Nat
  commandParam : Option String
  queueNumParam : Option Nat
  targetsParam : Option String
  parsedTargets : Option (List String)
  start : Nat
  lookPathOk : Bool
  setCallbackOk : Bool
  initOk : Bool
  unbindOk : Bool
  bindOk : Bool
  createQueueOk : Bool
  setModeOk : Bool
  firewallFailAt : Option Nat
deriving DecidableEq, Repr

/-- Shallow embedding of `Configure`. Mirrors the source line by line:
destroy any previous queue (`mod.destroyQueue()` sets `mod.queue = nil`),
read `rdp.proxy.port`, `rdp.proxy.command`, `rdp.proxy.queue.num`,
`rdp.proxy.targets`, parse the targets, resolve the command on PATH — each
failure returns immediately. Then allocate the queue object
(`mod.queue = new(nfqueue.Queue)`, i.e. `queue := some ()`), and run
SetCallback, Init, Unbind, Bind, CreateQueue, SetMode,
`configureFirewall(true)` — each failure returns immediately, *without*
destroying the queue object just created. Note that the registered
parameters `rdp.proxy.start` and `rdp.proxy.out` are never read.
Returns the new state, the `iptables` commands issued, and the failing step
(`none` = success). -/
def Configure (st : ModState) (env : ConfigEnv) :
    ModState × List IptablesCmd × Option String :=
  let st := { st with queue := none }
  match env.portParam with
  | none => (st, [], some "rdp.proxy.port")
  | some port =>
    let st := { st with port := port }
    match env.commandParam with
    | none => (st, [], some "rdp.proxy.command")
    | some cmd =>
      let st := { st with cmd := cmd }
      match env.queueNumParam with
      | none => (st, [], some "rdp.proxy.queue.num")
      | some qn =>
        let st := { st with queueNum := qn }
        match env.targetsParam with
        | none => (st, [], some "rdp.proxy.targets")
        | some _targets =>
          match env.parsedTargets with
          | none => (st, [], some "ParseTargets")
          | some addrs =>
            let st := { st with addresses := addrs }
            if !env.lookPathOk then (st, [], some "LookPath")
            else
              let st := { st with queue := some () }
              if !env.setCallbackOk then (st, [], some "SetCallback")
              else if !env.initOk then (st, [], some "Init")
              else if !env.unbindOk then (st, [], some "Unbind")
              else if !env.bindOk then (st, [], some "Bind")
              else if !env.createQueueOk then (st, [], some "CreateQueue")
              else if !env.setModeOk then (st, [], some "SetMode")
              else
                let fw := configureFirewall st.port st.queueNum true
                  env.firewallFailAt
                if fw.2 then (st, fw.1, none)
                else (st, fw.1, some "configureFirewall")

/-- Shallow embedding of `Start`: reject if already running, else run
`Configure`; on its error return it unchanged (the running flag is not set),
on success set the running flag (`SetRunning(true, ...)` — the spawned
receive-loop goroutine is not part of the state model). -/
def Start (st : ModState) (env : ConfigEnv) :
    ModState × List IptablesCmd × Option String :=
  if st.running then (st, [], some "already started")
  else
    match Configure st env with
    | (st₁, rules, some e) => (st₁, rules, some e)
    | (st₁, rules, none) => ({ st₁ with running := true }, rules, none)

/-- What `Stop` does besides flipping the running flag: it issues the
`configureFirewall(false)` teardown commands and calls
`cmd.Process.Kill()` on every entry of `mod.active` (listed here by key).
It does not delete any map entry and does not touch `startPort`. -/
structure StopEffects where
  killed : List String
  rules : List IptablesCmd
deriving DecidableEq, Repr

/-- Shallow embedding of `Stop`: `SetRunning(false, ...)` with a callback
that stops the queue loop, runs `configureFirewall(false)` and kills every
tracked agent process. The `active` map and `startPort` are left untouched.
(The queue object itself is destroyed by the deferred `destroyQueue` of the
receive-loop goroutine started by `Start`, outside this state model.) -/
def Stop (st : ModState) : ModState × StopEffects :=
  ({ st with running := false },
   { killed := st.active.map Prod.fst,
     rules := (configureFirewall st.port st.queueNum false none).1 })

/-! ## Concrete fixtures (spec §8 scenarios) -/

/-- Module state after a successful configuration with TargetSet
`{10.0.0.5}` (spec Scenario A setup). -/
def targetState : ModState :=
  { initState with addresses := ["10.0.0.5"], queue := some () }

/-- Scenario A packet: src 10.0.0.9:4444 → dst 10.0.0.5:3389. -/
def pktA : Packet := ⟨some ("10.0.0.9", "10.0.0.5"), some ("4444", "3389")⟩

/-- Scenario C packet: dst 10.0.0.9:443, a non-target. -/
def pktC : Packet := ⟨some ("10.0.0.1", "10.0.0.9"), some ("5555", "443")⟩

/-- A packet whose payload decodes to an IPv4 layer but no transport layer
(for example a fragment or a non-TCP/UDP protocol): `p.TransportLayer()`
is nil. -/
def noTransportPkt : Packet := ⟨some ("10.0.0.9", "10.0.0.5"), none⟩

/-! ## C1 — every decision branch issues exactly one drop verdict -/

/-- C1: for every packet that reaches one of the three decision branches
(new target session, existing target session, non-target — i.e. both the
network and the transport layer decoded), the handler returns normally,
having issued exactly one verdict, and that verdict is `NF_DROP`, which is
distinct from `NF_ACCEPT`. -/
theorem handle_issues_exactly_one_drop
    (st : ModState) (p : Packet) (spawnOk ruleOk : Bool)
    (hn : p.net.isSome) (ht : p.trans.isSome) :
    ∃ r, handleRdpConnection st p spawnOk ruleOk = some r ∧
      r.2.verdicts = [NF_DROP] ∧ NF_DROP ≠ NF_ACCEPT := by
  obtain ⟨⟨src, dst⟩, hnet⟩ := Option.isSome_iff_exists.mp hn
  obtain ⟨⟨sport, dport⟩, htr⟩ := Option.isSome_iff_exists.mp ht
  simp only [handleRdpConnection, hnet, htr]
  by_cases hT : isTarget st dst
  · simp only [hT, if_true]
    cases hL : st.active.lookup (dst ++ ":" ++ dport) with
    | some c => exact ⟨_, rfl, rfl, by decide⟩
    | none => exact ⟨_, rfl, rfl, by decide⟩
  · simp only [hT, if_false]
    exact ⟨_, rfl, rfl, by decide⟩

/-- Witness for C1: Scenario A's first packet on `targetState`. -/
theorem handle_issues_exactly_one_drop_witness :
    ∃ r, handleRdpConnection targetState pktA true true = some r ∧
      r.2.verdicts = [NF_DROP] ∧ NF_DROP ≠ NF_ACCEPT :=
  handle_issues_exactly_one_drop targetState pktA true true rfl rfl

/-! ## C2 — unparseable packets crash the handler -/

/-- C2 (counterexample): at the concrete packet with an IPv4 layer but no
transport layer, the handler crashes (nil-pointer dereference on
`p.TransportLayer()`, modelled by the `none` result): it does not issue a
drop verdict at all, contrary to the claim that such packets are handled
without crashing with a drop verdict. -/
theorem handle_no_transport_no_drop :
    handleRdpConnection initState noTransportPkt true true = none ∧
    ¬ ∃ r, handleRdpConnection initState noTransportPkt true true = some r ∧
        r.2.verdicts = [NF_DROP] := by
  refine ⟨rfl, ?_⟩
  rintro ⟨r, h, -⟩
  exact Option.noConfusion (rfl.trans h : (none : Option (ModState × Effects)) = some r)

/-- C2 (amended): a packet with no decoded network layer or no decoded
transport layer makes `handleRdpConnection` dereference a nil gopacket
layer and panic before reaching any branch: no verdict is issued, and (the
crash occurring before them) no session creation, process spawn or firewall
rule insertion takes place — modelled by the `none` result carrying no
state change and no effects. -/
theorem handle_crashes_on_unparseable
    (st : ModState) (p : Packet) (spawnOk ruleOk : Bool)
    (h : p.net = none ∨ p.trans = none) :
    handleRdpConnection st p spawnOk ruleOk = none := by
  obtain ⟨net, trans⟩ := p
  rcases h with h | h
  · cases h
    rfl
  · cases h
    cases net with
    | none => rfl
    | some sd => rfl

/-- Witness for the amended C2 at a concrete non-TCP packet. -/
theorem handle_crashes_on_unparseable_witness :
    handleRdpConnection targetState noTransportPkt false true = none :=
  handle_crashes_on_unparseable targetState noTransportPkt false true
    (Or.inr rfl)

/-! ## C8 — non-target packets get an exact (dstIP, dstPort) exemption -/

/-- C8: for every packet (with decoded layers) whose destination IP is not
in the target set, the handler leaves the state unchanged (no session
created, port cursor untouched), spawns nothing, issues exactly the
`doReturn` exemption command for the pair (dstIP, dstPort) of that packet,
and sets the drop verdict. -/
theorem handle_nontarget_exempts_exact_pair
    (st : ModState) (src dst sport dport : String) (spawnOk ruleOk : Bool)
    (hT : isTarget st dst = false) :
    handleRdpConnection st ⟨some (src, dst), some (sport, dport)⟩
        spawnOk ruleOk =
      some (st, ⟨[], [doReturnCmd dst dport true], [NF_DROP]⟩) := by
  simp only [handleRdpConnection, hT, Bool.false_eq_true, if_false]

/-- Witness for C8: spec Scenario C — dst 10.0.0.9:443 with TargetSet
`{10.0.0.5}`: exemption rule for exactly (10.0.0.9, 443), no spawn, no
state change, drop verdict. -/
theorem handle_nontarget_exempts_exact_pair_witness :
    handleRdpConnection targetState ⟨some ("10.0.0.1", "10.0.0.9"),
        some ("5555", "443")⟩ true true =
      some (targetState, ⟨[], [doReturnCmd "10.0.0.9" "443" true],
            [NF_DROP]⟩) :=
  handle_nontarget_exempts_exact_pair targetState "10.0.0.1" "10.0.0.9"
    "5555" "443" true true rfl

/-! ## C10 — the enable flag of the per-connection rule builders is dead -/

/-- C10: `doProxy` and `doReturn` build the same `iptables` insertion
command (position 1 of chain `BCAPRDP`) for every value of their `enable`
argument, and per-connection rules are only ever *inserted*: the only
removal commands in the module are the wholesale unhook/flush/delete triple
issued by `configureFirewall(false)`. -/
theorem rule_ops_ignore_enable_flag :
    (∀ sp addr port e₁ e₂,
      doProxyCmd sp addr port e₁ = doProxyCmd sp addr port e₂) ∧
    (∀ dst dport e₁ e₂, doReturnCmd dst dport e₁ = doReturnCmd dst dport e₂) ∧
    (∀ sp addr port e, (doProxyCmd sp addr port e).take 5 =
      ["-t", "nat", "-I", "BCAPRDP", "1"]) ∧
    (∀ dst dport e, (doReturnCmd dst dport e).take 5 =
      ["-t", "nat", "-I", "BCAPRDP", "1"]) ∧
    (∀ sp qn, configureFirewall sp qn false none =
      ([["-t", "nat", "-D", "PREROUTING", "-j", "BCAPRDP"],
        ["-t", "nat", "-F", "BCAPRDP"],
        ["-t", "nat", "-X", "BCAPRDP"]], true)) :=
  ⟨fun _ _ _ _ _ => rfl, fun _ _ _ _ => rfl, fun _ _ _ _ => rfl,
   fun _ _ _ => rfl, fun _ _ => rfl⟩

/-! ## C5 — per-connection rule failures are silently discarded -/

/-- C5 (counterexample): at the concrete non-target packet of Scenario C,
a failing `doReturn` `iptables` command (`ruleOk = false`) produces output
identical to the succeeding one — state, spawns, rules-issued and verdicts
all coincide, so the failure is not surfaced as any observable event,
contrary to the claim. -/
theorem handle_rule_failure_unobservable :
    handleRdpConnection targetState pktC true false =
      handleRdpConnection targetState pktC true true ∧
    handleRdpConnection targetState pktC true false =
      some (targetState,
        ⟨[], [doReturnCmd "10.0.0.9" "443" true], [NF_DROP]⟩) :=
  ⟨rfl, rfl⟩

/-- C5 (amended): the source discards the error returned by `doProxy` /
`doReturn` (`mod.doProxy(...)` and `mod.doReturn(...)` results are unused),
so the handler's entire result is independent of whether the underlying
firewall command fails; no event records the failure. The receive loop does
keep running: for every packet reaching a decision branch the handler
returns normally. -/
theorem handle_discards_rule_failures
    (st : ModState) (p : Packet) (spawnOk rOk₁ rOk₂ : Bool) :
    handleRdpConnection st p spawnOk rOk₁ =
      handleRdpConnection st p spawnOk rOk₂ ∧
    (p.net.isSome → p.trans.isSome →
      (handleRdpConnection st p spawnOk rOk₁).isSome) := by
  refine ⟨rfl, fun hn ht => ?_⟩
  obtain ⟨⟨src, dst⟩, hnet⟩ := Option.isSome_iff_exists.mp hn
  obtain ⟨⟨sport, dport⟩, htr⟩ := Option.isSome_iff_exists.mp ht
  simp only [handleRdpConnection, hnet, htr]
  by_cases hT : isTarget st dst
  · simp only [hT, if_true]
    cases hL : st.active.lookup (dst ++ ":" ++ dport) <;> rfl
  · simp only [hT, if_false]
    rfl

/-- Witness for the amended C5 at Scenario C's packet. -/
theorem handle_discards_rule_failures_witness :
    (handleRdpConnection targetState pktC true false =
      handleRdpConnection targetState pktC true true) ∧
    (pktC.net.isSome → pktC.trans.isSome →
      (handleRdpConnection targetState pktC true false).isSome) :=
  handle_discards_rule_failures targetState pktC true false true

/-! ## C6 — spawn failure triggers no fallback policy -/

/-- C6 (counterexample): on the first Scenario-A packet with a *failing*
agent spawn, the handler still installs the redirect rule steering
10.0.0.5:3389 to local port 40000 — a port with no listening agent —
records the session and bumps the cursor, contrary to the claim that no
such rule is installed on spawn failure. -/
theorem handle_spawn_failure_installs_redirect :
    handleRdpConnection targetState pktA false true =
      some ({ targetState with
                active := [("10.0.0.5:3389",
                  ⟨"pyrdp-mitm.py", ["-l", "40000", "10.0.0.5:3389"],
                   false⟩)],
                startPort := 40001 },
            ⟨[("pyrdp-mitm.py", ["-l", "40000", "10.0.0.5:3389"])],
             [doProxyCmd 3389 "10.0.0.5" "40000" true],
             [NF_DROP]⟩) := by
  rfl

/-- C6 (amended): the source ignores the `cmd.Start()` error (the error
branch is an empty block), so on spawn failure the handler proceeds exactly
as on success — it installs the redirect rule, records the ActiveSession
(whose stored process handle merely lacks a started process) and increments
the port cursor; no exclusion and no pass-through policy exists. -/
theorem handle_spawn_failure_no_policy
    (st : ModState) (src dst sport dport : String) (ruleOk : Bool)
    (hT : isTarget st dst = true)
    (hA : st.active.lookup (dst ++ ":" ++ dport) = none) :
    handleRdpConnection st ⟨some (src, dst), some (sport, dport)⟩
        false ruleOk =
      some ({ st with
                active := (dst ++ ":" ++ dport,
                  ⟨st.cmd, ["-l", toString st.startPort, dst ++ ":" ++ dport],
                   false⟩) :: st.active,
                startPort := st.startPort + 1 },
            ⟨[(st.cmd, ["-l", toString st.startPort, dst ++ ":" ++ dport])],
             [doProxyCmd st.port dst (toString st.startPort) true],
             [NF_DROP]⟩) := by
  simp only [handleRdpConnection, hT, if_true, hA]

/-- Witness for the amended C6: Scenario A's packet with failing spawn. -/
theorem handle_spawn_failure_no_policy_witness :
    handleRdpConnection targetState
        ⟨some ("10.0.0.9", "10.0.0.5"), some ("4444", "3389")⟩ false true =
      some ({ targetState with
                active := [("10.0.0.5:3389",
                  ⟨"pyrdp-mitm.py",
                   ["-l", toString (40000 : Nat), "10.0.0.5:3389"],
                   false⟩)],
                startPort := 40001 },
            ⟨[("pyrdp-mitm.py",
               ["-l", toString (40000 : Nat), "10.0.0.5:3389"])],
             [doProxyCmd 3389 "10.0.0.5" (toString (40000 : Nat)) true],
             [NF_DROP]⟩) :=
  handle_spawn_failure_no_policy targetState "10.0.0.9" "10.0.0.5" "4444"
    "3389" true rfl rfl

/-! ## C3 — per-endpoint idempotence -/

/-- C3: once a target endpoint has an ActiveSession, a further packet to
it changes nothing — no spawn, no rule, no cursor move, no map change, just
the drop verdict; and two consecutive packets to a fresh target endpoint
produce exactly one spawn and one redirect rule (the second packet adds
neither), with one drop verdict each. -/
theorem handle_idempotent_per_endpoint
    (st : ModState) (src dst sport dport : String)
    (sOk₁ rOk₁ sOk₂ rOk₂ : Bool)
    (hT : isTarget st dst = true) :
    (∀ c, st.active.lookup (dst ++ ":" ++ dport) = some c →
      handleRdpConnection st ⟨some (src, dst), some (sport, dport)⟩
          sOk₁ rOk₁ =
        some (st, ⟨[], [], [NF_DROP]⟩)) ∧
    (st.active.lookup (dst ++ ":" ++ dport) = none →
      runHandler st
          [(⟨some (src, dst), some (sport, dport)⟩, sOk₁, rOk₁),
           (⟨some (src, dst), some (sport, dport)⟩, sOk₂, rOk₂)] =
        some ({ st with
                  active := (dst ++ ":" ++ dport,
                    ⟨st.cmd,
                     ["-l", toString st.startPort, dst ++ ":" ++ dport],
                     sOk₁⟩) :: st.active,
                  startPort := st.startPort + 1 },
              ⟨[(st.cmd,
                 ["-l", toString st.startPort, dst ++ ":" ++ dport])],
               [doProxyCmd st.port dst (toString st.startPort) true],
               [NF_DROP, NF_DROP]⟩)) := by
  refine ⟨fun c hc => ?_, fun hA => ?_⟩
  · simp only [handleRdpConnection, hT, if_true, hc]
  · have h1 : handleRdpConnection st
        ⟨some (src, dst), some (sport, dport)⟩ sOk₁ rOk₁ =
        some ({ st with
                  active := (dst ++ ":" ++ dport,
                    ⟨st.cmd,
                     ["-l", toString st.startPort, dst ++ ":" ++ dport],
                     sOk₁⟩) :: st.active,
                  startPort := st.startPort + 1 },
              ⟨[(st.cmd,
                 ["-l", toString st.startPort, dst ++ ":" ++ dport])],
               [doProxyCmd st.port dst (toString st.startPort) true],
               [NF_DROP]⟩) := by
      simp only [handleRdpConnection, hT, if_true, hA]
    have hT₁ : isTarget { st with
        active := (dst ++ ":" ++ dport,
          (⟨st.cmd, ["-l", toString st.startPort, dst ++ ":" ++ dport],
            sOk₁⟩ : AgentCmd)) :: st.active,
        startPort := st.startPort + 1 } dst = true := hT
    have hL : ((dst ++ ":" ++ dport,
        (⟨st.cmd, ["-l", toString st.startPort, dst ++ ":" ++ dport],
          sOk₁⟩ : AgentCmd)) :: st.active).lookup (dst ++ ":" ++ dport) =
        some ⟨st.cmd, ["-l", toString st.startPort, dst ++ ":" ++ dport],
          sOk₁⟩ := by
      simp [List.lookup]
    have h2 : handleRdpConnection
        { st with
            active := (dst ++ ":" ++ dport,
              (⟨st.cmd, ["-l", toString st.startPort, dst ++ ":" ++ dport],
                sOk₁⟩ : AgentCmd)) :: st.active,
            startPort := st.startPort + 1 }
        ⟨some (src, dst), some (sport, dport)⟩ sOk₂ rOk₂ =
        some ({ st with
                  active := (dst ++ ":" ++ dport,
                    ⟨st.cmd,
                     ["-l", toString st.startPort, dst ++ ":" ++ dport],
                     sOk₁⟩) :: st.active,
                  startPort := st.startPort + 1 },
              ⟨[], [], [NF_DROP]⟩) := by
      simp only [handleRdpConnection, hT₁, if_true, hL]
    simp only [runHandler, h1, h2, Effects.append]
    rfl

/-- Witness for C3: Scenario A/B — two consecutive packets to
10.0.0.5:3389 on `targetState`. -/
theorem handle_idempotent_per_endpoint_witness :
    (∀ c, targetState.active.lookup ("10.0.0.5" ++ ":" ++ "3389") = some c →
      handleRdpConnection targetState
          ⟨some ("10.0.0.9", "10.0.0.5"), some ("4444", "3389")⟩
          true true =
        some (targetState, ⟨[], [], [NF_DROP]⟩)) ∧
    (targetState.active.lookup ("10.0.0.5" ++ ":" ++ "3389") = none →
      runHandler targetState
          [(⟨some ("10.0.0.9", "10.0.0.5"), some ("4444", "3389")⟩,
            true, true),
           (⟨some ("10.0.0.9", "10.0.0.5"), some ("4444", "3389")⟩,
            true, true)] =
        some ({ targetState with
                  active := [("10.0.0.5" ++ ":" ++ "3389",
                    ⟨targetState.cmd,
                     ["-l", toString targetState.startPort,
                      "10.0.0.5" ++ ":" ++ "3389"],
                     true⟩)],
                  startPort := targetState.startPort + 1 },
              ⟨[(targetState.cmd,
                 ["-l", toString targetState.startPort,
                  "10.0.0.5" ++ ":" ++ "3389"])],
               [doProxyCmd targetState.port "10.0.0.5"
                 (toString targetState.startPort) true],
               [NF_DROP, NF_DROP]⟩)) :=
  handle_idempotent_per_endpoint targetState "10.0.0.9" "10.0.0.5" "4444"
    "3389" true true true true rfl

/-! ## C4 — port allocation is sequential from the construction-time cursor -/

/-- Branch analysis of one handler call: either no spawn happened and the
cursor is unchanged, or exactly one agent was spawned with `-l` set to the
old cursor value and the cursor moved up by one. -/
theorem handle_spawn_step (st : ModState) (p : Packet) (sOk rOk : Bool)
    (st' : ModState) (e : Effects)
    (h : handleRdpConnection st p sOk rOk = some (st', e)) :
    (e.spawns = [] ∧ st'.startPort = st.startPort) ∨
    (∃ k, e.spawns = [(st.cmd, ["-l", toString st.startPort, k])] ∧
      st'.startPort = st.startPort + 1) := by
  obtain ⟨net, trans⟩ := p
  cases net with
  | none => simp [handleRdpConnection] at h
  | some sd =>
    obtain ⟨src, dst⟩ := sd
    cases trans with
    | none => simp [handleRdpConnection] at h
    | some pd =>
      obtain ⟨sport, dport⟩ := pd
      by_cases hT : isTarget st dst
      · rcases hL : st.active.lookup (dst ++ ":" ++ dport) with _ | c
        · simp only [handleRdpConnection, hT, if_true, hL,
            Option.some.injEq, Prod.mk.injEq] at h
          obtain ⟨rfl, rfl⟩ := h
          right
          exact ⟨dst ++ ":" ++ dport, rfl, rfl⟩
        · simp only [handleRdpConnection, hT, if_true, hL,
            Option.some.injEq, Prod.mk.injEq] at h
          obtain ⟨rfl, rfl⟩ := h
          left
          exact ⟨rfl, rfl⟩
      · simp only [handleRdpConnection, hT, if_false,
          Option.some.injEq, Prod.mk.injEq] at h
        obtain ⟨rfl, rfl⟩ := h
        left
        exact ⟨rfl, rfl⟩

/-- Over any run, the cursor advances by exactly the number of spawns, and
the `-l` arguments of the successive spawns enumerate
`startPort, startPort + 1, …` in order. -/
theorem runHandler_alloc (ps : List (Packet × Bool × Bool)) :
    ∀ st st' effs, runHandler st ps = some (st', effs) →
      st'.startPort = st.startPort + effs.spawns.length ∧
      effs.spawns.map (fun s => s.2.take 2) =
        (List.range' st.startPort effs.spawns.length).map
          (fun n => ["-l", toString n]) := by
  induction ps with
  | nil =>
    intro st st' effs h
    simp only [runHandler, Option.some.injEq, Prod.mk.injEq] at h
    obtain ⟨h1, h2⟩ := h
    subst h1
    subst h2
    simp
  | cons item rest ih =>
    intro st st' effs h
    obtain ⟨p, sOk, rOk⟩ := item
    cases h1 : handleRdpConnection st p sOk rOk with
    | none =>
      simp only [runHandler, h1] at h
      exact Option.noConfusion h
    | some r =>
      obtain ⟨st₁, e₁⟩ := r
      cases h2 : runHandler st₁ rest with
      | none =>
        simp only [runHandler, h1, h2] at h
        exact Option.noConfusion h
      | some r2 =>
        obtain ⟨st₂, e₂⟩ := r2
        simp only [runHandler, h1, h2, Option.some.injEq,
          Prod.mk.injEq] at h
        obtain ⟨rfl, rfl⟩ := h
        obtain ⟨ih1, ih2⟩ := ih st₁ st₂ e₂ h2
        rcases handle_spawn_step st p sOk rOk st₁ e₁ h1 with
          ⟨hs, hsp⟩ | ⟨k, hs, hsp⟩
        · refine ⟨?_, ?_⟩
          · rw [ih1, hsp]
            simp [Effects.append, hs]
          · simp only [Effects.append, hs, List.nil_append]
            rw [ih2, hsp]
        · refine ⟨?_, ?_⟩
          · rw [ih1, hsp]
            simp [Effects.append, hs]
            omega
          · simp only [Effects.append, hs, List.singleton_append,
              List.length_cons, List.map_cons, List.range'_succ,
              List.map, List.take]
            rw [ih2, hsp]

/-- `Configure` never writes `startPort`: in particular it does not read the
registered `rdp.proxy.start` parameter (`env.start`), whatever the
environment. -/
theorem configure_preserves_startPort (st : ModState) (env : ConfigEnv) :
    ((Configure st env).1).startPort = st.startPort := by
  unfold Configure
  cases env.portParam <;>
    [skip; cases env.commandParam] <;>
    [skip; skip; cases env.queueNumParam] <;>
    [skip; skip; skip; cases env.targetsParam] <;>
    [skip; skip; skip; skip; cases env.parsedTargets] <;>
    [skip; skip; skip; skip; skip;
     cases env.lookPathOk <;>
      cases env.setCallbackOk <;>
      cases env.initOk <;>
      cases env.unbindOk <;>
      cases env.bindOk <;>
      cases env.createQueueOk <;>
      cases env.setModeOk <;>
      simp [configureFirewall] <;>
      rcases env.firewallFailAt with _ | i <;>
      simp <;>
      split <;>
      rfl] <;>
    rfl

/-- A configuration environment in which every step succeeds, matching the
defaults (`rdp.proxy.port` 3389, command `pyrdp-mitm.py`, queue 0) and a
target specification resolving to `{10.0.0.5}`. -/
def envGood : ConfigEnv :=
  { portParam := some 3389
    commandParam := some "pyrdp-mitm.py"
    queueNumParam := some 0
    targetsParam := some "10.0.0.5"
    parsedTargets := some ["10.0.0.5"]
    start := 40000
    lookPathOk := true
    setCallbackOk := true
    initOk := true
    unbindOk := true
    bindOk := true
    createQueueOk := true
    setModeOk := true
    firewallFailAt := none }

/-- `envGood` with the `rdp.proxy.start` parameter set to 50000. -/
def envStart50000 : ConfigEnv := { envGood with start := 50000 }

/-- C4 (counterexample): with `rdp.proxy.start` set to 50000, a successful
`Configure` leaves the cursor at the construction-time 40000 — the
parameter is registered but never read — and the first new session is
spawned with `-l 40000`, not `-l 50000`, contradicting the claim that the
starting local port is the configuration value consumed by the core. -/
theorem configure_ignores_start_param :
    envStart50000.start = 50000 ∧
    (Configure initState envStart50000).2.2 = none ∧
    ((Configure initState envStart50000).1).startPort = 40000 ∧
    (handleRdpConnection (Configure initState envStart50000).1 pktA
        true true).map (fun r => r.2.spawns.map (fun s => s.2.take 2)) =
      some [["-l", "40000"]] ∧
    ("40000" : String) ≠ "50000" :=
  ⟨rfl, rfl, rfl, rfl, by decide⟩

/-- C4 (amended): the Nth newly created session of any run is assigned
local port `c + (N - 1)` where `c` is the port cursor at the start of the
run (40000 at construction), the cursor moving up exactly once per new
session — but `c` is not the configured `rdp.proxy.start` value:
`Configure` never reads that parameter and leaves the cursor untouched. -/
theorem port_allocation_from_cursor
    (st : ModState) (ps : List (Packet × Bool × Bool))
    (st' : ModState) (effs : Effects) (env : ConfigEnv)
    (h : runHandler st ps = some (st', effs)) :
    st'.startPort = st.startPort + effs.spawns.length ∧
    effs.spawns.map (fun s => s.2.take 2) =
      (List.range' st.startPort effs.spawns.length).map
        (fun n => ["-l", toString n]) ∧
    ((Configure st env).1).startPort = st.startPort :=
  ⟨(runHandler_alloc ps st st' effs h).1,
   (runHandler_alloc ps st st' effs h).2,
   configure_preserves_startPort st env⟩

/-- Module state with two targets, for a two-session allocation run. -/
def twoTargetState : ModState :=
  { initState with addresses := ["10.0.0.5", "10.0.0.6"], queue := some () }

/-- A first packet towards the second target, 10.0.0.6:3389. -/
def pktB : Packet := ⟨some ("10.0.0.9", "10.0.0.6"), some ("4445", "3389")⟩

/-- Witness for the amended C4: two fresh target endpoints get ports
40000 and 40001, the cursor ends at 40002, and `Configure` (with
`rdp.proxy.start = 50000`) leaves the cursor of `twoTargetState` alone. -/
theorem port_allocation_from_cursor_witness :
    ({ port := 3389, startPort := 40002, cmd := "pyrdp-mitm.py",
       queueNum := 0,
       active := [("10.0.0.6:3389",
           ⟨"pyrdp-mitm.py", ["-l", "40001", "10.0.0.6:3389"], true⟩),
         ("10.0.0.5:3389",
           ⟨"pyrdp-mitm.py", ["-l", "40000", "10.0.0.5:3389"], true⟩)],
       addresses := ["10.0.0.5", "10.0.0.6"], queue := some (),
       running := false } : ModState).startPort =
      twoTargetState.startPort +
        (⟨[("pyrdp-mitm.py", ["-l", "40000", "10.0.0.5:3389"]),
           ("pyrdp-mitm.py", ["-l", "40001", "10.0.0.6:3389"])],
          [doProxyCmd 3389 "10.0.0.5" "40000" true,
           doProxyCmd 3389 "10.0.0.6" "40001" true],
          [NF_DROP, NF_DROP]⟩ : Effects).spawns.length ∧
    (⟨[("pyrdp-mitm.py", ["-l", "40000", "10.0.0.5:3389"]),
       ("pyrdp-mitm.py", ["-l", "40001", "10.0.0.6:3389"])],
      [doProxyCmd 3389 "10.0.0.5" "40000" true,
       doProxyCmd 3389 "10.0.0.6" "40001" true],
      [NF_DROP, NF_DROP]⟩ : Effects).spawns.map (fun s => s.2.take 2) =
      (List.range' twoTargetState.startPort
        (⟨[("pyrdp-mitm.py", ["-l", "40000", "10.0.0.5:3389"]),
           ("pyrdp-mitm.py", ["-l", "40001", "10.0.0.6:3389"])],
          [doProxyCmd 3389 "10.0.0.5" "40000" true,
           doProxyCmd 3389 "10.0.0.6" "40001" true],
          [NF_DROP, NF_DROP]⟩ : Effects).spawns.length).map
        (fun n => ["-l", toString n]) ∧
    ((Configure twoTargetState envStart50000).1).startPort =
      twoTargetState.startPort :=
  port_allocation_from_cursor twoTargetState
    [(pktA, true, true), (pktB, true, true)]
    { port := 3389, startPort := 40002, cmd := "pyrdp-mitm.py",
      queueNum := 0,
      active := [("10.0.0.6:3389",
          ⟨"pyrdp-mitm.py", ["-l", "40001", "10.0.0.6:3389"], true⟩),
        ("10.0.0.5:3389",
          ⟨"pyrdp-mitm.py", ["-l", "40000", "10.0.0.5:3389"], true⟩)],
      addresses := ["10.0.0.5", "10.0.0.6"], queue := some (),
      running := false }
    ⟨[("pyrdp-mitm.py", ["-l", "40000", "10.0.0.5:3389"]),
      ("pyrdp-mitm.py", ["-l", "40001", "10.0.0.6:3389"])],
     [doProxyCmd 3389 "10.0.0.5" "40000" true,
      doProxyCmd 3389 "10.0.0.6" "40001" true],
     [NF_DROP, NF_DROP]⟩
    envStart50000 rfl

/-! ## C7 — a failing Configure leaves the queue object behind -/

/-- Once the four parameters read, the target parse and the PATH lookup
succeed, `Configure` has set the queue object, and every later outcome —
any queue-call or firewall failure included — returns a state that keeps
it: the source has no teardown on those error paths. -/
theorem configure_result_state
    (st : ModState) (env : ConfigEnv) (P Q : Nat) (C T : String)
    (A : List String)
    (hp : env.portParam = some P) (hc : env.commandParam = some C)
    (hq : env.queueNumParam = some Q) (ht : env.targetsParam = some T)
    (hpt : env.parsedTargets = some A) (hl : env.lookPathOk = true) :
    (Configure st env).1 =
      { st with port := P, cmd := C, queueNum := Q, addresses := A,
                queue := some () } := by
  simp only [Configure, hp, hc, hq, ht, hpt, hl]
  cases hsc : env.setCallbackOk <;>
    cases hin : env.initOk <;>
    cases hun : env.unbindOk <;>
    cases hbd : env.bindOk <;>
    cases hcq : env.createQueueOk <;>
    cases hsm : env.setModeOk <;>
    simp [configureFirewall] <;>
    rcases env.firewallFailAt with _ | i <;>
    simp <;>
    split <;>
    rfl

/-- C7 (counterexample): with every step up to CreateQueue succeeding and
SetMode failing, `Start` on the fresh module returns the error and stays
not running, but the queue object allocated by `Configure` is still present
in the state — it is not torn down before `Start` returns, contradicting
the claim. (It is only discarded by the `destroyQueue` at the top of the
*next* `Configure` call.) -/
theorem start_setmode_failure_leaves_queue :
    (Start initState { envGood with setModeOk := false }).2.2 =
      some "SetMode" ∧
    (Start initState { envGood with setModeOk := false }).1.queue =
      some () ∧
    (Start initState { envGood with setModeOk := false }).1.queue ≠ none ∧
    (Start initState { envGood with setModeOk := false }).1.running =
      false :=
  ⟨rfl, rfl, fun h => Option.noConfusion h, rfl⟩

/-- C7 (amended): when `Configure` fails at any step after the queue object
was allocated (parameters, target parse and PATH lookup all succeeded),
`Start` returns the error and the module is left not running — but the
queue state created before the failing step is *not* torn down before
`Start` returns: the returned state still holds the queue object. -/
theorem start_failure_keeps_dangling_queue
    (st : ModState) (env : ConfigEnv) (P Q : Nat) (C T : String)
    (A : List String) (e : String)
    (hrun : st.running = false)
    (hp : env.portParam = some P) (hc : env.commandParam = some C)
    (hq : env.queueNumParam = some Q) (ht : env.targetsParam = some T)
    (hpt : env.parsedTargets = some A) (hl : env.lookPathOk = true)
    (hE : (Configure st env).2.2 = some e) :
    Start st env =
      ({ st with port := P, cmd := C, queueNum := Q, addresses := A,
                 queue := some () },
       (Configure st env).2.1, some e) := by
  have hS := configure_result_state st env P Q C T A hp hc hq ht hpt hl
  rcases hCfg : Configure st env with ⟨st₁, rules, err⟩
  rw [hCfg] at hS hE
  dsimp only at hS hE
  subst hS
  subst hE
  simp [Start, hrun, hCfg]

/-- Witness for the amended C7 at the concrete SetMode failure. -/
theorem start_failure_keeps_dangling_queue_witness :
    Start initState { envGood with setModeOk := false } =
      ({ initState with
          port := 3389, cmd := "pyrdp-mitm.py", queueNum := 0,
          addresses := ["10.0.0.5"], queue := some () },
       (Configure initState { envGood with setModeOk := false }).2.1,
       some "SetMode") :=
  start_failure_keeps_dangling_queue initState
    { envGood with setModeOk := false } 3389 0 "pyrdp-mitm.py" "10.0.0.5"
    ["10.0.0.5"] "SetMode" rfl rfl rfl rfl rfl rfl rfl rfl

/-! ## C9 — Stop kills agents but keeps sessions and cursor -/

/-- When every parameter read, the target parse, the PATH lookup, every
queue call and the firewall enable succeed, `Configure` reports no error. -/
theorem configure_succeeds
    (st : ModState) (env : ConfigEnv) (P Q : Nat) (C T : String)
    (A : List String)
    (hp : env.portParam = some P) (hc : env.commandParam = some C)
    (hq : env.queueNumParam = some Q) (ht : env.targetsParam = some T)
    (hpt : env.parsedTargets = some A) (hl : env.lookPathOk = true)
    (hsc : env.setCallbackOk = true) (hin : env.initOk = true)
    (hun : env.unbindOk = true) (hbd : env.bindOk = true)
    (hcq : env.createQueueOk = true) (hsm : env.setModeOk = true)
    (hfw : env.firewallFailAt = none) :
    (Configure st env).2.2 = none := by
  simp [Configure, hp, hc, hq, ht, hpt, hl, hsc, hin, hun, hbd, hcq, hsm,
    configureFirewall, hfw]

/-- C9: `Stop` kills exactly the tracked agent processes while leaving the
session map and the port cursor intact; after a subsequent successful
`Configure` (a new `Start` of the same instance), the map and cursor are
still those of the previous run, so the first packet to a previously
intercepted endpoint spawns nothing and installs no rule, while the first
genuinely new target endpoint is allocated `startPort` of the old cursor
(continuing the sequence) rather than a restarted one. -/
theorem stop_then_restart_preserves_sessions
    (st : ModState) (env : ConfigEnv) (P Q : Nat) (C T : String)
    (A : List String) (src dst sport dport : String) (sOk rOk : Bool)
    (hp : env.portParam = some P) (hc : env.commandParam = some C)
    (hq : env.queueNumParam = some Q) (ht : env.targetsParam = some T)
    (hpt : env.parsedTargets = some A) (hl : env.lookPathOk = true)
    (hsc : env.setCallbackOk = true) (hin : env.initOk = true)
    (hun : env.unbindOk = true) (hbd : env.bindOk = true)
    (hcq : env.createQueueOk = true) (hsm : env.setModeOk = true)
    (hfw : env.firewallFailAt = none) :
    (Stop st).2.killed = st.active.map Prod.fst ∧
    (Stop st).1.active = st.active ∧
    (Stop st).1.startPort = st.startPort ∧
    (Configure (Stop st).1 env).2.2 = none ∧
    ((Configure (Stop st).1 env).1).active = st.active ∧
    ((Configure (Stop st).1 env).1).startPort = st.startPort ∧
    (∀ c, st.active.lookup (dst ++ ":" ++ dport) = some c →
      isTarget (Configure (Stop st).1 env).1 dst = true →
      handleRdpConnection (Configure (Stop st).1 env).1
          ⟨some (src, dst), some (sport, dport)⟩ sOk rOk =
        some ((Configure (Stop st).1 env).1, ⟨[], [], [NF_DROP]⟩)) ∧
    (st.active.lookup (dst ++ ":" ++ dport) = none →
      isTarget (Configure (Stop st).1 env).1 dst = true →
      (handleRdpConnection (Configure (Stop st).1 env).1
          ⟨some (src, dst), some (sport, dport)⟩ sOk rOk).map
          (fun r => (r.1.startPort,
            r.2.spawns.map (fun s => s.2.take 2), r.2.rules.length)) =
        some (st.startPort + 1, [["-l", toString st.startPort]], 1)) := by
  have hS : (Configure (Stop st).1 env).1 =
      { st with running := false, port := P, cmd := C, queueNum := Q,
                addresses := A, queue := some () } :=
    configure_result_state _ env P Q C T A hp hc hq ht hpt hl
  refine ⟨rfl, rfl, rfl, ?_, ?_, ?_, ?_, ?_⟩
  · exact configure_succeeds _ env P Q C T A hp hc hq ht hpt hl hsc hin
      hun hbd hcq hsm hfw
  · rw [hS]
  · rw [hS]
  · intro c hcL hT
    rw [hS] at hT ⊢
    have hc' : ({ st with
        running := false, port := P, cmd := C,
        queueNum := Q, addresses := A, queue := some () } :
        ModState).active.lookup (dst ++ ":" ++ dport) = some c := hcL
    simp only [handleRdpConnection, hT, if_true, hc']
  · intro hA hT
    rw [hS] at hT ⊢
    have hA' : ({ st with
        running := false, port := P, cmd := C,
        queueNum := Q, addresses := A, queue := some () } :
        ModState).active.lookup (dst ++ ":" ++ dport) = none := hA
    simp only [handleRdpConnection, hT, if_true, hA', Option.map_some']
    simp

/-- State of a first run that interecepted 10.0.0.5:3389: one tracked
session, cursor moved to 40001, module running. -/
def ranState : ModState :=
  { initState with
      addresses := ["10.0.0.5", "10.0.0.6"],
      active := [("10.0.0.5:3389",
        ⟨"pyrdp-mitm.py", ["-l", "40000", "10.0.0.5:3389"], true⟩)],
      startPort := 40001,
      queue := some (),
      running := true }

/-- Witness for C9 on `ranState`: Stop kills the one tracked agent and a
restart leaves its session and the cursor in place. -/
theorem stop_then_restart_preserves_sessions_witness :
    (Stop ranState).2.killed = ranState.active.map Prod.fst ∧
    (Stop ranState).1.active = ranState.active ∧
    (Stop ranState).1.startPort = ranState.startPort ∧
    (Configure (Stop ranState).1 envGood).2.2 = none ∧
    ((Configure (Stop ranState).1 envGood).1).active = ranState.active ∧
    ((Configure (Stop ranState).1 envGood).1).startPort =
      ranState.startPort ∧
    (∀ c, ranState.active.lookup ("10.0.0.5" ++ ":" ++ "3389") = some c →
      isTarget (Configure (Stop ranState).1 envGood).1 "10.0.0.5" = true →
      handleRdpConnection (Configure (Stop ranState).1 envGood).1
          ⟨some ("10.0.0.9", "10.0.0.5"), some ("4444", "3389")⟩
          true true =
        some ((Configure (Stop ranState).1 envGood).1,
          ⟨[], [], [NF_DROP]⟩)) ∧
    (ranState.active.lookup ("10.0.0.5" ++ ":" ++ "3389") = none →
      isTarget (Configure (Stop ranState).1 envGood).1 "10.0.0.5" = true →
      (handleRdpConnection (Configure (Stop ranState).1 envGood).1
          ⟨some ("10.0.0.9", "10.0.0.5"), some ("4444", "3389")⟩
          true true).map
          (fun r => (r.1.startPort,
            r.2.spawns.map (fun s => s.2.take 2), r.2.rules.length)) =
        some (ranState.startPort + 1, [["-l", toString ranState.startPort]],
          1)) :=
  stop_then_restart_preserves_sessions ranState envGood 3389 0
    "pyrdp-mitm.py" "10.0.0.5" ["10.0.0.5"] "10.0.0.9" "10.0.0.5" "4444"
    "3389" true true rfl rfl rfl rfl rfl rfl rfl rfl rfl rfl rfl rfl rfl

end RdpProxy
